import Mathlib

/-!
Shallow embedding of the WebSocket Sanskrit-handwriting relay server.

The repository contains several variants of the same server:
* `src/server.js`            — Gemini mediator with status dispatch (namespace `Server`)
* `src/unnamed/part_000`     — Gemini mediator with NO_TEXT sentinel, safety filter,
                               richer status dispatch and an error reply on malformed
                               inbound messages (namespace `P000`)
* `src/unnamed/part_002`     — bare Gemini mediator: no key check, no size guard,
                               no status dispatch (namespace `P002`)
* `src/unnamed/part_003` (1) — pure drawing relay, broadcast to all but the sender
                               (namespace `Relay`)
* `src/unnamed/part_003` (2) — OCR.space mediator with an engine-1 fallback
                               (namespace `Ocr`)

Conventions of the embedding:
* JavaScript strings are `String`, `.length` is `String.length` (code points;
  inputs here are base64/data-URI ASCII).
* A value that may be `undefined` is an `Option`.
* A thrown JavaScript exception is `Except.error (e : JsError)`; `try { } catch { }`
  is `expTryCatch`.  The outcome of `fetch` / `response.json()` is a parameter of
  type `GeminiOutcome` / `OcrOutcome`: either a rejected promise (network fault,
  JSON parse fault) or a decoded reply record holding exactly the fields the
  source reads.
* Each mediator returns `Except JsError (String × Nat)`: the result string and
  the number of outbound network attempts performed on that path.
-/

/-- JavaScript `sub.isPrefixOf s`-style helper on character lists (source uses
`String.prototype.includes` / a `^…` regexp; both are modelled on `.data`). -/
def containsSub (sub : List Char) : List Char → Bool
  | [] => sub.isPrefixOf []
  | a :: t => sub.isPrefixOf (a :: t) || containsSub sub t

/-- JavaScript `s.includes(sub)`. -/
def strIncludes (s sub : String) : Bool := containsSub sub.data s.data

/-- JavaScript `p` is a prefix of `s` (used to model anchored `^…` regexps and to
state the "Recognition Failed" prefix invariant). -/
def strStartsWith (p s : String) : Bool := p.data.isPrefixOf s.data

/-- Whitespace as removed by JavaScript `String.prototype.trim` (ASCII part). -/
def isJsSpace (c : Char) : Bool :=
  c = ' ' || c = '\t' || c = '\n' || c = '\r' || c = '\x0b' || c = '\x0c'

/-- JavaScript `s.trim()`. -/
def jsTrim (s : String) : String :=
  String.mk (((s.data.dropWhile isJsSpace).reverse.dropWhile isJsSpace).reverse)

/-- A thrown JavaScript error: its `name`, its `message`, and whether it is an
`instanceof SyntaxError` (checked by the part_000 catch clause). -/
structure JsError where
  errName : String
  message : String
  isSyntaxError : Bool
deriving DecidableEq

/-- The fields of a decoded Gemini JSON reply that any variant reads:
`response.status`, whether `result.error` is present, `result.error.message`,
`result.candidates[0].finishReason`, `result.candidates[0].content.parts[0].text`. -/
structure GeminiReply where
  status : Nat
  errorPresent : Bool
  errorMessage : Option String
  finishReason : Option String
  candidateText : Option String
deriving DecidableEq

/-- Outcome of `await fetch(...)` followed by `await response.json()` against the
Gemini endpoint: a rejected fetch, a body that fails to decode, or a reply. -/
inductive GeminiOutcome where
  | fetchFault (e : JsError)
  | jsonFault (e : JsError)
  | reply (r : GeminiReply)
deriving DecidableEq

/-- One entry of `result.ParsedResults` in an OCR.space reply. -/
structure OcrParsed where
  ParsedText : String
  FileParseExitCode : Int
deriving DecidableEq

/-- The fields of a decoded OCR.space reply that the source reads. -/
structure OcrReply where
  status : Nat
  statusText : String
  IsErroredOnProcessing : Bool
  ErrorMessage : Option (List String)
  ParsedResults : Option (List OcrParsed)
deriving DecidableEq

/-- Outcome of one `fetch` + `response.json()` against the OCR.space endpoint. -/
inductive OcrOutcome where
  | fetchFault (e : JsError)
  | jsonFault (e : JsError)
  | reply (r : OcrReply)
deriving DecidableEq

/-- `response.ok` of the Fetch API: status in the range 200–299. -/
def httpOk (status : Nat) : Bool := decide (200 ≤ status) && decide (status ≤ 299)

/-- JavaScript `try { body } catch (e) { handler }`. -/
def expTryCatch {α : Type} (body : Except JsError α)
    (handler : JsError → Except JsError α) : Except JsError α :=
  match body with
  | .ok a => .ok a
  | .error e => handler e

/-- WebSocket `readyState` OPEN. -/
def OPEN : Nat := 1

/-- One live client connection: reference identity (`id`) and transport state. -/
structure Conn where
  id : Nat
  readyState : Nat
deriving DecidableEq

/-- A frame sent back to a client: a verbatim relayed blob, a
`recognized_text` broadcast, or an `error` reply. -/
inductive OutMsg where
  | raw (data : String)
  | recognizedText (text : String)
  | errorReply (message : String)
deriving DecidableEq

/-- `wss.clients.forEach(c => { if (c.readyState === OPEN) c.send(m) })`:
the list of `(connection id, frame)` deliveries. -/
def broadcastAll (clients : List Conn) (m : OutMsg) : List (Nat × OutMsg) :=
  clients.filterMap fun c => if c.readyState = OPEN then some (c.id, m) else none

/-- An inbound client frame after `JSON.parse`: either the parse (or a later
field access on a non-object) throws, or it yields an object whose `type` and
`image` fields may each be absent. -/
inductive ClientMsg where
  | malformed (e : JsError)
  | obj (ty : Option String) (image : Option String)
deriving DecidableEq

namespace Server

/-- `base64ImageData.replace(/^data:image\/png;base64,/, '')` (src/server.js:64). -/
def cleanBase64 (s : String) : String :=
  if "data:image/png;base64,".data.isPrefixOf s.data then
    String.mk (s.data.drop "data:image/png;base64,".data.length)
  else s

/-- Evaluation of `response.status === 400 && result.error?.message.includes("API
key not valid")` (src/server.js:89).  The chain `?.` guards only `error`: when
`error` is present but `message` is absent, `.includes` throws a TypeError. -/
def check400 (r : GeminiReply) : Except JsError Bool :=
  if r.status = 400 then
    if r.errorPresent then
      match r.errorMessage with
      | some m => .ok (strIncludes m "API key not valid")
      | none => .error ⟨"TypeError", "Cannot read properties of undefined", false⟩
    else .ok false
  else .ok false

/-- Body of the `try` block of src/server.js:77-113 once the reply is decoded. -/
def tryBody (r : GeminiReply) : Except JsError String :=
  if !httpOk r.status then
    match check400 r with
    | .error e => .error e
    | .ok true => .ok "Recognition Failed: Invalid GEMINI_API_KEY."
    | .ok false =>
      if r.status = 429 then
        .ok "Recognition Failed: Rate Limit Exceeded (Too many requests)."
      else
        .ok ("Recognition Failed: HTTP Error " ++
          (Nat.repr r.status ++ ". See server logs for details."))
  else
    match r.candidateText with
    | some t =>
      if t = "" then
        .ok "Recognition Failed: Model failed to process input or response structure invalid."
      else .ok t
    | none =>
      .ok "Recognition Failed: Model failed to process input or response structure invalid."

/-- `recognizeSanskritText` of src/server.js:38-119.  Second component: number of
network attempts. -/
def recognizeSanskritText (apiKey base64ImageData : String) (prov : GeminiOutcome) :
    Except JsError (String × Nat) :=
  if apiKey = "" then .ok ("Recognition Failed: API Key Missing.", 0)
  else if base64ImageData.length < 5000 then
    .ok ("Recognition Failed: Please write clearly (ensure dark, thick lines) before recognizing.", 0)
  else
    expTryCatch
      (match prov with
        | .fetchFault e => .error e
        | .jsonFault e => .error e
        | .reply r => (tryBody r).map (fun s => (s, 1)))
      (fun _ => .ok ("Recognition Failed: Server Network Error or JSON Parse Failure.", 1))

/-- Message handler of src/server.js:125-151.  The catch clause only logs, so a
malformed frame produces no delivery; on a recognition request the result is
broadcast to every open connection, the sender included.  When `data.image` is
absent the mediator body evaluates `undefined.length`, which throws unless the
missing-key check returned first. -/
def incoming (apiKey : String) (ws : Conn) (clients : List Conn) (msg : ClientMsg)
    (prov : GeminiOutcome) : List (Nat × OutMsg) :=
  match msg with
  | .malformed _ => []
  | .obj ty image =>
    if ty = some "recognize_image" then
      match image with
      | some img =>
        match recognizeSanskritText apiKey img prov with
        | .ok (t, _) => broadcastAll clients (.recognizedText t)
        | .error _ => []
      | none =>
        if apiKey = "" then
          broadcastAll clients (.recognizedText "Recognition Failed: API Key Missing.")
        else []
    else []

end Server

namespace P000

/-- `result.error?.message?.includes(sub)` (full optional chain, never throws). -/
def errMsgIncludes (r : GeminiReply) (sub : String) : Bool :=
  r.errorPresent &&
    match r.errorMessage with
    | some m => strIncludes m sub
    | none => false

/-- `result.error?.message || 'Unknown error'`. -/
def errMsgOrUnknown (r : GeminiReply) : String :=
  if r.errorPresent then
    match r.errorMessage with
    | some m => if m = "" then "Unknown error" else m
    | none => "Unknown error"
  else "Unknown error"

/-- Response normalization of src/unnamed/part_000:113-166 (nothing in it can
throw: every chain is fully `?.`-guarded). -/
def normalize (r : GeminiReply) : String :=
  if !httpOk r.status then
    if r.status = 400 then
      if errMsgIncludes r "API key" then
        "Recognition Failed: Invalid API key. Check your GEMINI_API_KEY."
      else if errMsgIncludes r "model" || errMsgIncludes r "not found" then
        "Recognition Failed: Model \x27gemini-2.5-flash\x27 not available. Check API access."
      else "Recognition Failed: Bad Request - " ++ errMsgOrUnknown r
    else if r.status = 403 then
      "Recognition Failed: API key lacks permission or billing not enabled."
    else if r.status = 429 then
      "Recognition Failed: Rate limit exceeded. Try again in a moment."
    else if r.status = 500 || r.status = 503 then
      "Recognition Failed: Google API server error. Try again later."
    else "Recognition Failed: HTTP Error " ++ Nat.repr r.status
  else if r.finishReason = some "SAFETY" then
    "Recognition Failed: Content filtered by safety settings."
  else
    match r.candidateText with
    | some t =>
      if t = "" then "Recognition Failed: Empty response from model."
      else if jsTrim t = "NO_TEXT" then
        "Recognition Failed: No legible text detected. Please write more clearly."
      else jsTrim t
    | none => "Recognition Failed: Empty response from model."

/-- Catch clause of src/unnamed/part_000:168-178. -/
def catchClause (e : JsError) : String :=
  if e.errName = "TypeError" && strIncludes e.message "fetch" then
    "Recognition Failed: Network error. Check internet connection."
  else if e.isSyntaxError then
    "Recognition Failed: Invalid JSON response from API."
  else "Recognition Failed: " ++ e.message

/-- `recognizeSanskritText` of src/unnamed/part_000:42-179. -/
def recognizeSanskritText (apiKey base64ImageData : String) (prov : GeminiOutcome) :
    Except JsError (String × Nat) :=
  if apiKey = "" then .ok ("Recognition Failed: API Key Missing.", 0)
  else if base64ImageData.length < 5000 then
    .ok ("Recognition Failed: Please write clearly (ensure dark, thick lines) before recognizing.", 0)
  else
    expTryCatch
      (match prov with
        | .fetchFault e => .error e
        | .jsonFault e => .error e
        | .reply r => .ok (normalize r, 1))
      (fun e => .ok (catchClause e, 1))

/-- Message handler of src/unnamed/part_000:185-220: its catch clause replies
`{type:'error', message:'Server error processing request'}` to the sender. -/
def incoming (apiKey : String) (ws : Conn) (clients : List Conn) (msg : ClientMsg)
    (prov : GeminiOutcome) : List (Nat × OutMsg) :=
  match msg with
  | .malformed _ => [(ws.id, OutMsg.errorReply "Server error processing request")]
  | .obj ty image =>
    if ty = some "recognize_image" then
      match image with
      | some img =>
        match recognizeSanskritText apiKey img prov with
        | .ok (t, _) => broadcastAll clients (.recognizedText t)
        | .error _ => [(ws.id, OutMsg.errorReply "Server error processing request")]
      | none =>
        if apiKey = "" then
          broadcastAll clients (.recognizedText "Recognition Failed: API Key Missing.")
        else [(ws.id, OutMsg.errorReply "Server error processing request")]
    else []

end P000

namespace P002

/-- `recognizeSanskritText` of src/unnamed/part_002:35-82.  The variant never
consults the credential (`apiKey` only reaches the request URL), has no size
guard, and performs no status dispatch: `result.candidates?.[0]?...?.text ||
"Recognition Failed: API Response Empty"` is the whole normalization. -/
def recognizeSanskritText (apiKey base64ImageData : String) (prov : GeminiOutcome) :
    Except JsError (String × Nat) :=
  expTryCatch
    (match prov with
      | .fetchFault e => .error e
      | .jsonFault e => .error e
      | .reply r =>
        match r.candidateText with
        | some t =>
          if t = "" then .ok ("Recognition Failed: API Response Empty", 1)
          else .ok (t, 1)
        | none => .ok ("Recognition Failed: API Response Empty", 1))
    (fun _ => .ok ("Recognition Failed: Server Error.", 1))

end P002

namespace Relay

/-- Message handler of the drawing relay, src/unnamed/part_003:42-53: every
inbound frame is forwarded verbatim to every other open connection. -/
def incoming (ws : Conn) (data : String) (clients : List Conn) : List (Nat × OutMsg) :=
  clients.filterMap fun client =>
    if client.id ≠ ws.id ∧ client.readyState = OPEN then
      some (client.id, OutMsg.raw data)
    else none

end Relay

namespace Ocr

/-- `base64ImageData.replace(/^data:image\/\w+;base64,/, '')`
(src/unnamed/part_003:106): an anchored match of `data:image/`, one or more
word characters, then `;base64,`. -/
def stripDataUri (s : String) : String :=
  if "data:image/".data.isPrefixOf s.data then
    if (decide (1 ≤ ((s.data.drop "data:image/".data.length).takeWhile
          (fun c => c.isAlphanum || c = '_')).length) &&
        ";base64,".data.isPrefixOf ((s.data.drop "data:image/".data.length).drop
          ((s.data.drop "data:image/".data.length).takeWhile
            (fun c => c.isAlphanum || c = '_')).length)) then
      String.mk ((s.data.drop "data:image/".data.length).drop
        (((s.data.drop "data:image/".data.length).takeWhile
          (fun c => c.isAlphanum || c = '_')).length + ";base64,".data.length))
    else s
  else s

/-- `result.ErrorMessage ? result.ErrorMessage.join(', ') : 'Unknown error'`
(an empty array is truthy in JavaScript and joins to the empty string). -/
def errorMsgOf (r : OcrReply) : String :=
  match r.ErrorMessage with
  | some parts => String.intercalate ", " parts
  | none => "Unknown error"

/-- `result.ParsedResults[0].ParsedText.trim()` when `ParsedResults` is a
non-empty array, else the empty string. -/
def headParsedText (r : OcrReply) : String :=
  match r.ParsedResults with
  | some (p :: _) => jsTrim p.ParsedText
  | _ => ""

/-- `recognizeSanskritTextWithEngine1` of src/unnamed/part_003:186-213. -/
def recognizeSanskritTextWithEngine1 (provE1 : OcrOutcome) : Except JsError (String × Nat) :=
  expTryCatch
    (match provE1 with
      | .fetchFault e => .error e
      | .jsonFault e => .error e
      | .reply r =>
        if headParsedText r = "" then
          .ok ("Recognition Failed: No text detected with either engine.", 1)
        else .ok (headParsedText r, 1))
    (fun _ => .ok ("Recognition Failed: Both engines failed.", 1))

/-- Body of the `try` block of src/unnamed/part_003:127-177; the engine-1 retry
issues a second network attempt. -/
def mainBody (provMain provE1 : OcrOutcome) : Except JsError (String × Nat) :=
  match provMain with
  | .fetchFault e => .error e
  | .jsonFault e => .error e
  | .reply r =>
    if !httpOk r.status then
      .ok ("Recognition Failed: HTTP " ++ (Nat.repr r.status ++ (" - " ++ r.statusText)), 1)
    else if r.IsErroredOnProcessing then
      if strIncludes (errorMsgOf r) "Engine2" || strIncludes (errorMsgOf r) "engine" then
        (recognizeSanskritTextWithEngine1 provE1).map (fun sn => (sn.1, 1 + sn.2))
      else .ok ("Recognition Failed: " ++ errorMsgOf r, 1)
    else
      if headParsedText r = "" then
        .ok ("Recognition Failed: No text detected. Try writing larger and clearer.", 1)
      else .ok (headParsedText r, 1)

/-- `recognizeSanskritText` of src/unnamed/part_003:100-183 (OCR.space variant):
key check, data-URI strip, size guard on the stripped payload, then the call. -/
def recognizeSanskritText (apiKey base64ImageData : String) (provMain provE1 : OcrOutcome) :
    Except JsError (String × Nat) :=
  if apiKey = "" then .ok ("Recognition Failed: OCR API Key Missing or not loaded.", 0)
  else if (stripDataUri base64ImageData).length < 1000 then
    .ok ("Recognition Failed: Please write clearly before recognizing.", 0)
  else
    expTryCatch (mainBody provMain provE1)
      (fun e => .ok ("Recognition Failed: " ++ e.message, 1))

end Ocr

/-- Projection used to state output properties: the string of a normally
returned result, the empty string for a propagated exception (which the
mediators are proved never to produce). -/
def resultString : Except JsError (String × Nat) → String
  | .ok (s, _) => s
  | .error _ => ""

/-- The provider text a Gemini-variant mediator may pass through. -/
def geminiPassText : GeminiOutcome → Option String
  | .reply r => r.candidateText
  | _ => none

/-- The provider text the OCR.space mediator may pass through: the trimmed head
parsed text of a reply. -/
def ocrPassText : OcrOutcome → Option String
  | .reply r =>
    match r.ParsedResults with
    | some (p :: _) => some (jsTrim p.ParsedText)
    | _ => none
  | _ => none

/-- A concrete thrown network fault, for witnesses. -/
def jsErr0 : JsError := ⟨"TypeError", "fetch failed", false⟩

/-- A concrete Gemini-side outcome, for witnesses. -/
def gOut0 : GeminiOutcome := .fetchFault jsErr0

/-- A concrete OCR-side outcome, for witnesses. -/
def oOut0 : OcrOutcome := .fetchFault jsErr0

/-- An input whose stripped payload is below the server.js threshold while the
raw payload is not: the data-URI header plus 4990 characters. -/
def c3img : String := String.mk ("data:image/png;base64,".data ++ List.replicate 4990 'a')

/-- An input of raw length exactly 5000 (passes every raw-length size guard). -/
def bigImg : String := String.mk (List.replicate 5000 'a')

/-- A 200 reply whose text field is the server.js sentinel sentence. -/
def r4 : GeminiReply := ⟨200, false, none, none, some "Recognition Failed"⟩

/-- A 429 reply with an error body and no candidates. -/
def r5 : GeminiReply := ⟨429, true, some "Resource has been exhausted", none, none⟩

/-- A 200 reply whose text field is exactly the part_000 sentinel NO_TEXT. -/
def r4b : GeminiReply := ⟨200, false, none, none, some "NO_TEXT"⟩

/-! Helper lemmas. -/

theorem strStartsWith_append (p q m : String) (h : strStartsWith p q = true) :
    strStartsWith p (q ++ m) = true := by
  unfold strStartsWith at h ⊢
  simp only [ List.isPrefixOf_iff_prefix] at h ⊢
  rw [String.data_append]
  exact h.trans (List.prefix_append _ _)

theorem length_mk (l : List Char) : (String.mk l).length = l.length := rfl

theorem bigImg_length : bigImg.length = 5000 := by
  rw [bigImg, length_mk, List.length_replicate]

theorem c3img_length : c3img.length = 5012 := by
  rw [c3img, length_mk, List.length_append, List.length_replicate]
  decide

theorem expTryCatch_total {α : Type} (b : Except JsError α) (h : JsError → Except JsError α)
    (hh : ∀ e, ∃ a, h e = .ok a) : ∃ a, expTryCatch b h = .ok a := by
  cases b with
  | ok a => exact ⟨a, rfl⟩
  | error e => exact hh e

/-! Claim theorems. -/

/-- C1: for every input string, every credential and every provider outcome
(success, any non-2xx status, malformed JSON, or a thrown network fault), the
recognition mediator of src/server.js and the one of the OCR.space variant
return exactly one plain string — an `Except.ok` result — and never let an
exception propagate to the caller. -/
theorem C1_mediator_always_returns_string (k i : String) (p : GeminiOutcome)
    (pm pe : OcrOutcome) :
    (∃ r, Server.recognizeSanskritText k i p = Except.ok r) ∧
    (∃ r, Ocr.recognizeSanskritText k i pm pe = Except.ok r) := by
  constructor
  · unfold Server.recognizeSanskritText
    split
    · exact ⟨_, rfl⟩
    · split
      · exact ⟨_, rfl⟩
      · exact expTryCatch_total _ _ (fun e => ⟨_, rfl⟩)
  · unfold Ocr.recognizeSanskritText
    split
    · exact ⟨_, rfl⟩
    · split
      · exact ⟨_, rfl⟩
      · exact expTryCatch_total _ _ (fun e => ⟨_, rfl⟩)

/-- C2: for open connections A, B, C with distinct identities, a drawing event
sent by A through the relay handler is delivered unmodified to B and to C and
no delivery goes back to A. -/
theorem C2_relay_broadcast_except_sender (a b c : Conn) (d : String)
    (clients : List Conn) (hb : b ∈ clients) (hc : c ∈ clients)
    (hba : b.id ≠ a.id) (hca : c.id ≠ a.id)
    (hbo : b.readyState = OPEN) (hco : c.readyState = OPEN) :
    (b.id, OutMsg.raw d) ∈ Relay.incoming a d clients ∧
    (c.id, OutMsg.raw d) ∈ Relay.incoming a d clients ∧
    ∀ q ∈ Relay.incoming a d clients, q.1 ≠ a.id := by
  refine ⟨?_, ?_, ?_⟩
  · exact List.mem_filterMap.mpr ⟨b, hb, by simp [hba, hbo]⟩
  · exact List.mem_filterMap.mpr ⟨c, hc, by simp [hca, hco]⟩
  · intro q hq
    rcases List.mem_filterMap.mp hq with ⟨x, _, hfx⟩
    by_cases hx : x.id ≠ a.id ∧ x.readyState = OPEN
    · rw [if_pos hx] at hfx
      cases hfx
      exact hx.1
    · rw [if_neg hx] at hfx
      cases hfx

/-- Witness for C2: three concrete open connections; the event from connection 0
reaches connections 1 and 2 and never connection 0. -/
theorem C2_witness :
    ((1, OutMsg.raw "stroke") ∈
        Relay.incoming ⟨0, OPEN⟩ "stroke" [⟨0, OPEN⟩, ⟨1, OPEN⟩, ⟨2, OPEN⟩] ∧
      (2, OutMsg.raw "stroke") ∈
        Relay.incoming ⟨0, OPEN⟩ "stroke" [⟨0, OPEN⟩, ⟨1, OPEN⟩, ⟨2, OPEN⟩] ∧
      ∀ q ∈ Relay.incoming ⟨0, OPEN⟩ "stroke" [⟨0, OPEN⟩, ⟨1, OPEN⟩, ⟨2, OPEN⟩],
        q.1 ≠ (⟨0, OPEN⟩ : Conn).id) :=
  C2_relay_broadcast_except_sender ⟨0, OPEN⟩ ⟨1, OPEN⟩ ⟨2, OPEN⟩ "stroke" _
    (by simp) (by simp) (by decide) (by decide) rfl rfl

/-- C9: the server.js mediator is deterministic — two invocations with
byte-identical credential, input and provider response produce byte-identical
output strings. -/
theorem C9_deterministic (k1 k2 i1 i2 : String) (p1 p2 : GeminiOutcome)
    (hk : k1 = k2) (hi : i1 = i2) (hp : p1 = p2) :
    Server.recognizeSanskritText k1 i1 p1 = Server.recognizeSanskritText k2 i2 p2 := by
  rw [hk, hi, hp]

/-- Witness for C9 at concrete equal inputs. -/
theorem C9_witness :
    Server.recognizeSanskritText "key" "img" gOut0 =
      Server.recognizeSanskritText "key" "img" gOut0 :=
  C9_deterministic "key" "key" "img" "img" gOut0 gOut0 rfl rfl rfl

/-- C6 counterexample: the part_002 variant never checks the credential.  With
no key configured it still performs the network attempt (second component 1)
and, on the provider rejection, returns the generic empty-response string
rather than a key-missing failure. -/
theorem C6_counterexample :
    P002.recognizeSanskritText "" "img"
        (.reply ⟨400, true, some "API key not valid", none, none⟩) =
      Except.ok ("Recognition Failed: API Response Empty", 1) ∧
    strIncludes "Recognition Failed: API Response Empty" "Key Missing" = false := by
  exact ⟨rfl, by decide⟩

/-- C6 amended: in src/server.js, part_000 and the OCR.space variant an absent
credential is detected before any network attempt (zero attempts) and produces
the immediate key-missing failure string; the part_002 variant performs the
call regardless and never returns a key-missing string. -/
theorem C6_key_missing (i : String) (p : GeminiOutcome) (pm pe : OcrOutcome) :
    Server.recognizeSanskritText "" i p =
      Except.ok ("Recognition Failed: API Key Missing.", 0) ∧
    P000.recognizeSanskritText "" i p =
      Except.ok ("Recognition Failed: API Key Missing.", 0) ∧
    Ocr.recognizeSanskritText "" i pm pe =
      Except.ok ("Recognition Failed: OCR API Key Missing or not loaded.", 0) := by
  refine ⟨?_, ?_, ?_⟩ <;>
    simp [Server.recognizeSanskritText, P000.recognizeSanskritText,
      Ocr.recognizeSanskritText]

/-- C7 counterexample: in src/server.js the catch clause of the message handler
only logs — a malformed inbound frame produces no reply at all, in particular
no error reply to the offending sender. -/
theorem C7_counterexample :
    Server.incoming "key" ⟨0, OPEN⟩ [⟨0, OPEN⟩, ⟨1, OPEN⟩]
        (.malformed ⟨"SyntaxError", "Unexpected token", true⟩) gOut0 = [] := rfl

/-- C7 amended: a malformed inbound message is caught locally in both variants
and no connection other than the sender receives anything; the part_000 variant
replies with the single local error frame to the offending sender only, while
src/server.js logs the failure and sends nothing. -/
theorem C7_malformed_reply (k : String) (ws : Conn) (clients : List Conn)
    (e : JsError) (p : GeminiOutcome) :
    P000.incoming k ws clients (.malformed e) p =
      [(ws.id, OutMsg.errorReply "Server error processing request")] ∧
    Server.incoming k ws clients (.malformed e) p = [] :=
  ⟨rfl, rfl⟩

/-- C8 counterexample: the drawing-relay server of part_003 has no type
dispatch; a well-formed frame whose type field matches nothing it could
recognize is still forwarded verbatim to every other open connection. -/
theorem C8_counterexample :
    Relay.incoming ⟨0, OPEN⟩ "\x7b\"type\":\"bogus\"\x7d" [⟨0, OPEN⟩, ⟨1, OPEN⟩] =
      [(1, OutMsg.raw "\x7b\"type\":\"bogus\"\x7d")] := by decide

/-- C8 amended: in the dispatching servers (src/server.js and part_000) a
well-formed message whose type is not the recognized variant produces no
broadcast and no failure reply; the pure relay of part_003 instead forwards
every frame, whatever its type, to all other open connections. -/
theorem C8_unknown_type_dropped (k : String) (ws : Conn) (clients : List Conn)
    (ty image : Option String) (p : GeminiOutcome)
    (h : ty ≠ some "recognize_image") :
    Server.incoming k ws clients (.obj ty image) p = [] ∧
    P000.incoming k ws clients (.obj ty image) p = [] := by
  constructor <;> simp [Server.incoming, P000.incoming, h]

/-- Witness for C8: a concrete frame of type "bogus" yields no delivery in
either dispatching server. -/
theorem C8_witness :
    (some "bogus" ≠ some "recognize_image") ∧
    Server.incoming "key" ⟨0, OPEN⟩ [⟨0, OPEN⟩, ⟨1, OPEN⟩]
        (.obj (some "bogus") none) gOut0 = [] ∧
    P000.incoming "key" ⟨0, OPEN⟩ [⟨0, OPEN⟩, ⟨1, OPEN⟩]
        (.obj (some "bogus") none) gOut0 = [] := by
  refine ⟨by decide, ?_⟩
  exact C8_unknown_type_dropped "key" ⟨0, OPEN⟩ [⟨0, OPEN⟩, ⟨1, OPEN⟩]
    (some "bogus") none gOut0 (by decide)

theorem c3img_strip : Server.cleanBase64 c3img = String.mk (List.replicate 4990 'a') := by
  unfold Server.cleanBase64
  rw [if_pos ?hp]
  case hp =>
    show "data:image/png;base64,".data.isPrefixOf
      ("data:image/png;base64,".data ++ List.replicate 4990 'a') = true
    simp only [ List.isPrefixOf_iff_prefix]
    exact List.prefix_append _ _
  show String.mk (("data:image/png;base64,".data ++ List.replicate 4990 'a').drop
    "data:image/png;base64,".data.length) = _
  rw [List.drop_left]

/-- C3 counterexample: for the input made of the data-URI header followed by
4990 characters, the stripped payload is 4990 characters long — below the
configured 5000 threshold — yet src/server.js, which tests the raw length,
performs the network attempt (second component 1) and does not return the
canvas-too-blank string. -/
theorem C3_counterexample :
    (Server.cleanBase64 c3img).length < 5000 ∧
    Server.recognizeSanskritText "k" c3img gOut0 =
      Except.ok ("Recognition Failed: Server Network Error or JSON Parse Failure.", 1) := by
  constructor
  · rw [c3img_strip, length_mk, List.length_replicate]
    decide
  · unfold Server.recognizeSanskritText
    rw [if_neg (by decide), if_neg (by rw [c3img_length]; decide)]
    rfl

/-- C3 amended: with a credential configured, a below-threshold payload yields
the fixed canvas-too-blank string and zero network attempts — but src/server.js
tests the raw payload length against 5000, while only the OCR.space variant
tests the stripped payload length (against 1000). -/
theorem C3_size_guard (k i : String) (p : GeminiOutcome) (pm pe : OcrOutcome)
    (hk : k ≠ "") (hs : i.length < 5000) (ho : (Ocr.stripDataUri i).length < 1000) :
    Server.recognizeSanskritText k i p =
      Except.ok ("Recognition Failed: Please write clearly (ensure dark, thick lines) before recognizing.", 0) ∧
    Ocr.recognizeSanskritText k i pm pe =
      Except.ok ("Recognition Failed: Please write clearly before recognizing.", 0) := by
  constructor
  · unfold Server.recognizeSanskritText
    rw [if_neg hk, if_pos hs]
  · unfold Ocr.recognizeSanskritText
    rw [if_neg hk, if_pos ho]

/-- Witness for C3 amended: a concrete two-character payload short-circuits both
mediators with zero network attempts. -/
theorem C3_size_guard_witness :
    (("k" : String) ≠ "" ∧ ("ab" : String).length < 5000 ∧
      (Ocr.stripDataUri "ab").length < 1000) ∧
    (Server.recognizeSanskritText "k" "ab" gOut0 =
        Except.ok ("Recognition Failed: Please write clearly (ensure dark, thick lines) before recognizing.", 0) ∧
      Ocr.recognizeSanskritText "k" "ab" oOut0 oOut0 =
        Except.ok ("Recognition Failed: Please write clearly before recognizing.", 0)) :=
  ⟨⟨by decide, by decide, by decide⟩,
    C3_size_guard "k" "ab" gOut0 oOut0 oOut0 (by decide) (by decide) (by decide)⟩

/-- C4 counterexample: src/server.js instructs the model to reply with the
sentence "Recognition Failed" when it cannot recognize the image, and its
handler passes that sentinel through unchanged — the mediator does return the
sentinel string itself to the caller. -/
theorem C4_counterexample :
    Server.recognizeSanskritText "k" bigImg (.reply r4) =
      Except.ok ("Recognition Failed", 1) := by
  unfold Server.recognizeSanskritText
  rw [if_neg (by decide), if_neg (by rw [bigImg_length]; decide)]
  rfl

/-- C4 amended: in the part_000 variant, whose designated sentinel is NO_TEXT, a
successful reply whose text field is exactly the sentinel yields the dedicated
no-legible-text failure string, which is neither the sentinel itself nor the
generic empty-response failure; src/server.js instead passes its own sentinel
through verbatim. -/
theorem C4_sentinel_mapped (k i : String) (r : GeminiReply)
    (hk : k ≠ "") (hs : ¬ i.length < 5000) (hok : httpOk r.status = true)
    (hfr : r.finishReason ≠ some "SAFETY") (ht : r.candidateText = some "NO_TEXT") :
    P000.recognizeSanskritText k i (.reply r) =
      Except.ok ("Recognition Failed: No legible text detected. Please write more clearly.", 1) ∧
    ("Recognition Failed: No legible text detected. Please write more clearly." ≠
      ("NO_TEXT" : String)) ∧
    ("Recognition Failed: No legible text detected. Please write more clearly." ≠
      ("Recognition Failed: Empty response from model." : String)) := by
  refine ⟨?_, by decide, by decide⟩
  have hjt : jsTrim "NO_TEXT" = "NO_TEXT" := by decide
  have hb : P000.normalize r =
      "Recognition Failed: No legible text detected. Please write more clearly." := by
    simp [P000.normalize, hok, hfr, ht, hjt]
  unfold P000.recognizeSanskritText
  rw [if_neg hk, if_neg hs]
  dsimp only
  rw [hb]
  rfl

/-- Witness for C4 amended at a concrete NO_TEXT reply. -/
theorem C4_sentinel_mapped_witness :
    (("k" : String) ≠ "" ∧ ¬ bigImg.length < 5000 ∧ httpOk r4b.status = true ∧
      r4b.finishReason ≠ some "SAFETY" ∧ r4b.candidateText = some "NO_TEXT") ∧
    (P000.recognizeSanskritText "k" bigImg (.reply r4b) =
        Except.ok ("Recognition Failed: No legible text detected. Please write more clearly.", 1) ∧
      ("Recognition Failed: No legible text detected. Please write more clearly." ≠
        ("NO_TEXT" : String)) ∧
      ("Recognition Failed: No legible text detected. Please write more clearly." ≠
        ("Recognition Failed: Empty response from model." : String))) :=
  ⟨⟨by decide, by rw [bigImg_length]; decide, by decide, by decide, rfl⟩,
    C4_sentinel_mapped "k" bigImg r4b (by decide) (by rw [bigImg_length]; decide)
      (by decide) (by decide) rfl⟩

/-- C5 counterexample: the part_002 variant performs no status dispatch — a 429
rejection with an error body and no candidates yields the generic
empty-response string, the same string an ordinary empty 200 reply yields, and
that string references rate limiting nowhere. -/
theorem C5_counterexample :
    P002.recognizeSanskritText "k" "img" (.reply r5) =
      Except.ok ("Recognition Failed: API Response Empty", 1) ∧
    P002.recognizeSanskritText "k" "img" (.reply ⟨200, false, none, none, none⟩) =
      Except.ok ("Recognition Failed: API Response Empty", 1) ∧
    strIncludes "Recognition Failed: API Response Empty" "rate" = false ∧
    strIncludes "Recognition Failed: API Response Empty" "Rate" = false ∧
    strIncludes "Recognition Failed: API Response Empty" "limit" = false ∧
    strIncludes "Recognition Failed: API Response Empty" "429" = false := by
  refine ⟨rfl, rfl, ?_, ?_, ?_, ?_⟩ <;> decide

/-- C5 amended: in src/server.js and part_000 a 429 reply produces the dedicated
rate-limit string (which mentions the rate limit); the part_002 variant has no
status handling at all and the OCR.space variant answers with its generic
HTTP-status string. -/
theorem C5_rate_limit (k i : String) (r r2 : GeminiReply)
    (hk : k ≠ "") (hs : ¬ i.length < 5000) (h429 : r.status = 429) (h2 : r2.status = 429) :
    Server.recognizeSanskritText k i (.reply r) =
      Except.ok ("Recognition Failed: Rate Limit Exceeded (Too many requests).", 1) ∧
    P000.recognizeSanskritText k i (.reply r2) =
      Except.ok ("Recognition Failed: Rate limit exceeded. Try again in a moment.", 1) ∧
    strIncludes "Recognition Failed: Rate Limit Exceeded (Too many requests)." "Rate Limit" = true ∧
    strIncludes "Recognition Failed: Rate limit exceeded. Try again in a moment." "Rate limit" = true := by
  refine ⟨?_, ?_, by decide, by decide⟩
  · have hb : Server.tryBody r =
        .ok "Recognition Failed: Rate Limit Exceeded (Too many requests)." := by
      unfold Server.tryBody Server.check400
      rw [h429]
      rfl
    unfold Server.recognizeSanskritText
    rw [if_neg hk, if_neg hs]
    dsimp only
    rw [hb]
    rfl
  · have hb : P000.normalize r2 =
        "Recognition Failed: Rate limit exceeded. Try again in a moment." := by
      unfold P000.normalize
      rw [h2]
      rfl
    unfold P000.recognizeSanskritText
    rw [if_neg hk, if_neg hs]
    dsimp only
    rw [hb]
    rfl

/-- Witness for C5 amended at a concrete 429 rejection. -/
theorem C5_rate_limit_witness :
    (("k" : String) ≠ "" ∧ ¬ bigImg.length < 5000 ∧ r5.status = 429 ∧ r5.status = 429) ∧
    (Server.recognizeSanskritText "k" bigImg (.reply r5) =
        Except.ok ("Recognition Failed: Rate Limit Exceeded (Too many requests).", 1) ∧
      P000.recognizeSanskritText "k" bigImg (.reply r5) =
        Except.ok ("Recognition Failed: Rate limit exceeded. Try again in a moment.", 1) ∧
      strIncludes "Recognition Failed: Rate Limit Exceeded (Too many requests)." "Rate Limit" = true ∧
      strIncludes "Recognition Failed: Rate limit exceeded. Try again in a moment." "Rate limit" = true) :=
  ⟨⟨by decide, by rw [bigImg_length]; decide, rfl, rfl⟩,
    C5_rate_limit "k" bigImg r5 r5 (by decide) (by rw [bigImg_length]; decide) rfl rfl⟩

/-! Lemmas for the "Recognition Failed" prefix invariant. -/

theorem server_tryBody_spec (r : GeminiReply) :
    (∃ e, Server.tryBody r = .error e) ∨
    (∃ s, Server.tryBody r = .ok s ∧
      (strStartsWith "Recognition Failed" s = true ∨ r.candidateText = some s)) := by
  unfold Server.tryBody
  cases hok : httpOk r.status with
  | false =>
    rw [if_pos (show ((!false) = true) by decide)]
    cases hc : Server.check400 r with
    | error e =>
      dsimp only
      left
      exact ⟨e, rfl⟩
    | ok b =>
      cases b with
      | true =>
        dsimp only
        right
        exact ⟨_, rfl, Or.inl (by decide)⟩
      | false =>
        dsimp only
        split
        · right; exact ⟨_, rfl, Or.inl (by decide)⟩
        · right; exact ⟨_, rfl, Or.inl (strStartsWith_append _ _ _ (by decide))⟩
  | true =>
    rw [if_neg (show ¬((!true) = true) by decide)]
    cases hct : r.candidateText with
    | none =>
      dsimp only
      right
      exact ⟨_, rfl, Or.inl (by decide)⟩
    | some t =>
      dsimp only
      split
      · right; exact ⟨_, rfl, Or.inl (by decide)⟩
      · right; exact ⟨t, rfl, Or.inr rfl⟩

theorem server_prefix_cases (k i : String) (p : GeminiOutcome) :
    strStartsWith "Recognition Failed"
        (resultString (Server.recognizeSanskritText k i p)) = true
      ∨ ∃ t, geminiPassText p = some t ∧
          resultString (Server.recognizeSanskritText k i p) = t := by
  unfold Server.recognizeSanskritText
  split
  · left; decide
  split
  · left; decide
  cases p with
  | fetchFault e =>
    left
    show strStartsWith "Recognition Failed"
      "Recognition Failed: Server Network Error or JSON Parse Failure." = true
    decide
  | jsonFault e =>
    left
    show strStartsWith "Recognition Failed"
      "Recognition Failed: Server Network Error or JSON Parse Failure." = true
    decide
  | reply r =>
    dsimp only
    rcases server_tryBody_spec r with ⟨e, he⟩ | ⟨s, hs', hps⟩
    · left
      rw [he]
      show strStartsWith "Recognition Failed"
        "Recognition Failed: Server Network Error or JSON Parse Failure." = true
      decide
    · rcases hps with hpre | hpass
      · left
        rw [hs']
        exact hpre
      · right
        refine ⟨s, hpass, ?_⟩
        rw [hs']
        rfl

theorem p000_normalize_spec (r : GeminiReply) :
    strStartsWith "Recognition Failed" (P000.normalize r) = true ∨
      ∃ t, r.candidateText = some t ∧ P000.normalize r = jsTrim t := by
  unfold P000.normalize
  cases hok : httpOk r.status with
  | false =>
    rw [if_pos (show ((!false) = true) by decide)]
    split
    · split
      · left; decide
      · split
        · left; decide
        · left; exact strStartsWith_append _ _ _ (by decide)
    · split
      · left; decide
      · split
        · left; decide
        · split
          · left; decide
          · left; exact strStartsWith_append _ _ _ (by decide)
  | true =>
    rw [if_neg (show ¬((!true) = true) by decide)]
    split
    · left; decide
    · cases hct : r.candidateText with
      | none => left; decide
      | some t =>
        dsimp only
        split
        · left; decide
        · split
          · left; decide
          · right; exact ⟨t, rfl, rfl⟩

theorem p000_catch_prefix_holds (e : JsError) :
    strStartsWith "Recognition Failed" (P000.catchClause e) = true := by
  unfold P000.catchClause
  split
  · decide
  · split
    · decide
    · exact strStartsWith_append _ _ _ (by decide)

theorem p000_prefix_cases (k i : String) (p : GeminiOutcome) :
    strStartsWith "Recognition Failed"
        (resultString (P000.recognizeSanskritText k i p)) = true
      ∨ ∃ t, geminiPassText p = some t ∧
          resultString (P000.recognizeSanskritText k i p) = jsTrim t := by
  unfold P000.recognizeSanskritText
  split
  · left; decide
  split
  · left; decide
  cases p with
  | fetchFault e => left; exact p000_catch_prefix_holds e
  | jsonFault e => left; exact p000_catch_prefix_holds e
  | reply r =>
    rcases p000_normalize_spec r with hpre | ⟨t, hct, hnt⟩
    · left; exact hpre
    · right
      refine ⟨t, hct, ?_⟩
      show P000.normalize r = jsTrim t
      exact hnt

theorem p002_prefix_cases (k i : String) (p : GeminiOutcome) :
    strStartsWith "Recognition Failed"
        (resultString (P002.recognizeSanskritText k i p)) = true
      ∨ ∃ t, geminiPassText p = some t ∧
          resultString (P002.recognizeSanskritText k i p) = t := by
  unfold P002.recognizeSanskritText
  cases p with
  | fetchFault e =>
    left
    show strStartsWith "Recognition Failed" "Recognition Failed: Server Error." = true
    decide
  | jsonFault e =>
    left
    show strStartsWith "Recognition Failed" "Recognition Failed: Server Error." = true
    decide
  | reply r =>
    dsimp only
    cases hct : r.candidateText with
    | none =>
      left
      show strStartsWith "Recognition Failed" "Recognition Failed: API Response Empty" = true
      decide
    | some t =>
      dsimp only
      split
      · left
        show strStartsWith "Recognition Failed" "Recognition Failed: API Response Empty" = true
        decide
      · right; exact ⟨t, hct, rfl⟩

theorem ocr_engine1_total (pe : OcrOutcome) :
    ∃ a, Ocr.recognizeSanskritTextWithEngine1 pe = .ok a := by
  unfold Ocr.recognizeSanskritTextWithEngine1
  exact expTryCatch_total _ _ (fun e => ⟨_, rfl⟩)

theorem ocrPassText_eq_head (r : OcrReply) :
    ocrPassText (OcrOutcome.reply r) = none ∧ Ocr.headParsedText r = "" ∨
    ocrPassText (OcrOutcome.reply r) = some (Ocr.headParsedText r) := by
  unfold ocrPassText Ocr.headParsedText
  dsimp only
  cases hpr : r.ParsedResults with
  | none => left; exact ⟨rfl, rfl⟩
  | some l =>
    cases l with
    | nil => left; exact ⟨rfl, rfl⟩
    | cons q tl => right; rfl

theorem ocr_engine1_spec (pe : OcrOutcome) :
    strStartsWith "Recognition Failed"
        (resultString (Ocr.recognizeSanskritTextWithEngine1 pe)) = true
      ∨ ∃ t, ocrPassText pe = some t ∧
          resultString (Ocr.recognizeSanskritTextWithEngine1 pe) = t := by
  unfold Ocr.recognizeSanskritTextWithEngine1
  cases pe with
  | fetchFault e =>
    left
    show strStartsWith "Recognition Failed" "Recognition Failed: Both engines failed." = true
    decide
  | jsonFault e =>
    left
    show strStartsWith "Recognition Failed" "Recognition Failed: Both engines failed." = true
    decide
  | reply r =>
    dsimp only
    split
    · left
      show strStartsWith "Recognition Failed"
        "Recognition Failed: No text detected with either engine." = true
      decide
    · next hne =>
      rcases ocrPassText_eq_head r with ⟨hnone, h0⟩ | hsome
      · exact absurd h0 hne
      · right; exact ⟨Ocr.headParsedText r, hsome, rfl⟩

theorem ocr_prefix_cases (k i : String) (pm pe : OcrOutcome) :
    strStartsWith "Recognition Failed"
        (resultString (Ocr.recognizeSanskritText k i pm pe)) = true
      ∨ ∃ t, (ocrPassText pm = some t ∨ ocrPassText pe = some t) ∧
          resultString (Ocr.recognizeSanskritText k i pm pe) = t := by
  unfold Ocr.recognizeSanskritText
  split
  · left; decide
  split
  · left; decide
  cases pm with
  | fetchFault e =>
    left
    show strStartsWith "Recognition Failed" ("Recognition Failed: " ++ e.message) = true
    exact strStartsWith_append _ _ _ (by decide)
  | jsonFault e =>
    left
    show strStartsWith "Recognition Failed" ("Recognition Failed: " ++ e.message) = true
    exact strStartsWith_append _ _ _ (by decide)
  | reply r =>
    unfold Ocr.mainBody
    dsimp only
    split
    · left
      show strStartsWith "Recognition Failed"
        ("Recognition Failed: HTTP " ++ (Nat.repr r.status ++ (" - " ++ r.statusText))) = true
      exact strStartsWith_append _ _ _ (by decide)
    · split
      · split
        · obtain ⟨⟨s, n⟩, ha⟩ := ocr_engine1_total pe
          rcases ocr_engine1_spec pe with hpre | ⟨t, hp, he⟩
          · left
            rw [ha] at hpre ⊢
            exact hpre
          · right
            rw [ha] at he
            refine ⟨t, Or.inr hp, ?_⟩
            rw [ha]
            exact he
        · left
          show strStartsWith "Recognition Failed"
            ("Recognition Failed: " ++ Ocr.errorMsgOf r) = true
          exact strStartsWith_append _ _ _ (by decide)
      · split
        · left
          show strStartsWith "Recognition Failed"
            "Recognition Failed: No text detected. Try writing larger and clearer." = true
          decide
        · next hne =>
          rcases ocrPassText_eq_head r with ⟨hnone, h0⟩ | hsome
          · exact absurd h0 hne
          · right; exact ⟨Ocr.headParsedText r, Or.inl hsome, rfl⟩

/-- C10: every failure string a mediator generates itself (key missing, blank
canvas, each HTTP-status branch, safety filter, empty response, caught
exception) begins with the prefix "Recognition Failed"; every output lacking
that prefix is provider text passed through — verbatim for src/server.js and
part_002, trimmed for part_000, and for the OCR.space variant the trimmed head
parsed text of one of the two engine replies. -/
theorem C10_failure_strings_prefixed (k i : String) (p : GeminiOutcome)
    (pm pe : OcrOutcome) :
    (strStartsWith "Recognition Failed"
        (resultString (Server.recognizeSanskritText k i p)) = true
      ∨ ∃ t, geminiPassText p = some t ∧
          resultString (Server.recognizeSanskritText k i p) = t) ∧
    (strStartsWith "Recognition Failed"
        (resultString (P000.recognizeSanskritText k i p)) = true
      ∨ ∃ t, geminiPassText p = some t ∧
          resultString (P000.recognizeSanskritText k i p) = jsTrim t) ∧
    (strStartsWith "Recognition Failed"
        (resultString (P002.recognizeSanskritText k i p)) = true
      ∨ ∃ t, geminiPassText p = some t ∧
          resultString (P002.recognizeSanskritText k i p) = t) ∧
    (strStartsWith "Recognition Failed"
        (resultString (Ocr.recognizeSanskritText k i pm pe)) = true
      ∨ ∃ t, (ocrPassText pm = some t ∨ ocrPassText pe = some t) ∧
          resultString (Ocr.recognizeSanskritText k i pm pe) = t) :=
  ⟨server_prefix_cases k i p, p000_prefix_cases k i p,
    p002_prefix_cases k i p, ocr_prefix_cases k i pm pe⟩
